import Mathlib

/-
Verification of the `check_ads_tables` diagnostic utility
(src/utils/check_ads_tables.py).

The script opens one database connection, runs a fixed sequence of read-only
queries over four tables (nullifiers, ads_state_commits, tree_state,
proof_batches), prints human-readable lines, and closes the connection; any
exception is caught by a single top-level handler that prints two error lines.

Shallow embedding: the database is an explicit value (lists of rows), each SQL
query is a pure function over it, and a run of the script is a pure function
from an environment (DATABASE_URL variable, a fault model for the connection
and for each query, and the database contents) to a trace of observable events
(queries issued, lines printed, close calls) together with the process exit
code.
-/

namespace CheckAdsTables

/-- A row of the `nullifiers` table, with the columns the script reads. -/
structure Nullifier where
  value : String
  tree_index : Int
  created_at : Int
  is_active : Bool
deriving DecidableEq, Repr

/-- A row of the `ads_state_commits` table. -/
structure StateCommit where
  batch_id : Int
  created_at : Int
deriving DecidableEq, Repr

/-- A row of the `tree_state` table. -/
structure TreeState where
  tree_id : String
  total_nullifiers : Int
  next_available_index : Int
  updated_at : Int
deriving DecidableEq, Repr

/-- A row of the `proof_batches` table. -/
structure ProofBatch where
  id : Int
  transaction_count : Int
  proof_status : String
  created_at : Int
deriving DecidableEq, Repr

/-- The state of the four tables the script reads. -/
structure Database where
  nullifiers : List Nullifier
  ads_state_commits : List StateCommit
  tree_state : List TreeState
  proof_batches : List ProofBatch
deriving DecidableEq, Repr

/-- Insert `x` into a list sorted descending by `key`, keeping it sorted. -/
def insertDesc {α : Type} (key : α → Int) (x : α) : List α → List α
  | [] => [x]
  | y :: ys => if key y ≤ key x then x :: y :: ys else y :: insertDesc key x ys

/-- Sort a list descending by `key` (models SQL `ORDER BY key DESC`). -/
def sortDesc {α : Type} (key : α → Int) : List α → List α
  | [] => []
  | x :: xs => insertDesc key x (sortDesc key xs)

/-- Rows satisfying `WHERE is_active = true` on the nullifiers table. -/
def activeNullifiers (db : Database) : List Nullifier :=
  db.nullifiers.filter (fun n => n.is_active)

/-- `SELECT COUNT(*) FROM nullifiers WHERE is_active = true`. -/
def nullifierCount (db : Database) : Nat :=
  (activeNullifiers db).length

/-- `SELECT value, tree_index, created_at FROM nullifiers WHERE is_active = true
ORDER BY created_at DESC LIMIT 3`. -/
def recentNullifiers (db : Database) : List Nullifier :=
  (sortDesc (fun n => n.created_at) (activeNullifiers db)).take 3

/-- `SELECT COUNT(*) FROM ads_state_commits`. -/
def commitCount (db : Database) : Nat :=
  db.ads_state_commits.length

/-- `SELECT batch_id, created_at FROM ads_state_commits ORDER BY created_at DESC
LIMIT 3`. -/
def recentCommits (db : Database) : List StateCommit :=
  (sortDesc (fun c => c.created_at) db.ads_state_commits).take 3

/-- `SELECT total_nullifiers, next_available_index, updated_at FROM tree_state
WHERE tree_id = 'default'` followed by `fetchone()`: the first matching row, if
any. -/
def treeStateLookup (db : Database) : Option TreeState :=
  (db.tree_state.filter (fun t => t.tree_id == "default")).head?

/-- `SELECT id, transaction_count, proof_status, created_at FROM proof_batches
ORDER BY created_at DESC LIMIT 3`. -/
def recentBatches (db : Database) : List ProofBatch :=
  (sortDesc (fun b => b.created_at) db.proof_batches).take 3

/-- The six SQL statements the script can execute, in source order. -/
inductive Query where
  | countActiveNullifiers
  | selectRecentNullifiers
  | countStateCommits
  | selectRecentCommits
  | selectTreeState
  | selectRecentBatches
deriving DecidableEq, Repr

/-- The literal SQL text passed to `cur.execute` for each query. -/
def sqlOf : Query → String
  | .countActiveNullifiers =>
      "SELECT COUNT(*) FROM nullifiers WHERE is_active = true"
  | .selectRecentNullifiers =>
      "SELECT value, tree_index, created_at FROM nullifiers WHERE is_active = true ORDER BY created_at DESC LIMIT 3"
  | .countStateCommits =>
      "SELECT COUNT(*) FROM ads_state_commits"
  | .selectRecentCommits =>
      "SELECT batch_id, created_at FROM ads_state_commits ORDER BY created_at DESC LIMIT 3"
  | .selectTreeState =>
      "SELECT total_nullifiers, next_available_index, updated_at FROM tree_state WHERE tree_id = \x27default\x27"
  | .selectRecentBatches =>
      "SELECT id, transaction_count, proof_status, created_at FROM proof_batches ORDER BY created_at DESC LIMIT 3"

/-- Observable events of a run: a query issued to the database, a line written
to standard output, or a close call on the cursor or connection. -/
inductive Event where
  | query (q : Query)
  | output (line : String)
  | closeCursor
  | closeConn
deriving DecidableEq, Repr

/-- The environment of a run: the `DATABASE_URL` variable (`none` when unset),
whether `psycopg2.connect` raises (and with what message), whether each
`cur.execute` raises, and the contents of the four tables. -/
structure Env where
  databaseUrlVar : Option String
  connectError : Option String
  queryError : Query → Option String
  db : Database

/-- The default connection string used when `DATABASE_URL` is unset. -/
def defaultDatabaseUrl : String :=
  "postgres://postgres@localhost:5432/postgres"

/-- `os.environ.get('DATABASE_URL', 'postgres://postgres@localhost:5432/postgres')`. -/
def databaseUrl (env : Env) : String :=
  match env.databaseUrlVar with
  | some s => s
  | none => defaultDatabaseUrl

/-- The printed line for one recent nullifier row. -/
def nullifierLine (n : Nullifier) : String :=
  "   Value: " ++ n.value ++ ", Tree Index: " ++ toString n.tree_index ++
    ", Created: " ++ toString n.created_at

/-- The printed line for one recent state-commit row. -/
def commitLine (c : StateCommit) : String :=
  "   Batch ID: " ++ toString c.batch_id ++ ", Created: " ++ toString c.created_at

/-- The printed line for the tree-state row. -/
def treeStateLine (t : TreeState) : String :=
  "📊 Tree state: " ++ toString t.total_nullifiers ++ " nullifiers, next index: " ++
    toString t.next_available_index ++ ", updated: " ++ toString t.updated_at

/-- The printed line for one recent proof-batch row. -/
def batchLine (b : ProofBatch) : String :=
  "   Batch " ++ toString b.id ++ ": " ++ toString b.transaction_count ++
    " txns, status: " ++ b.proof_status ++ ", created: " ++ toString b.created_at

/-- First line printed by the `except` handler. -/
def errLine1 (e : String) : String :=
  "❌ Error connecting to database: " ++ e

/-- Second line printed by the `except` handler; it embeds the attempted
connection target. -/
def errLine2 (url : String) : String :=
  "💡 Make sure DATABASE_URL is set correctly: " ++ url

/-- The nullifier section of the script: the count query, its printed line, and
(only when the count is positive) the detail query with its printed rows.
Returns the trace and `some e` when an execute call raised `e`. -/
def nullifierStep (env : Env) : List Event × Option String :=
  match env.queryError Query.countActiveNullifiers with
  | some e => ([Event.query Query.countActiveNullifiers], some e)
  | none =>
    let c := nullifierCount env.db
    let base := [Event.query Query.countActiveNullifiers,
      Event.output ("📊 Active nullifiers: " ++ toString c)]
    if 0 < c then
      match env.queryError Query.selectRecentNullifiers with
      | some e => (base ++ [Event.query Query.selectRecentNullifiers], some e)
      | none =>
        (base ++ Event.query Query.selectRecentNullifiers ::
          Event.output "📝 Recent nullifiers:" ::
          (recentNullifiers env.db).map (fun n => Event.output (nullifierLine n)), none)
    else (base, none)

/-- The state-commit section: count query, printed line, and the guarded detail
query with its printed rows. -/
def commitStep (env : Env) : List Event × Option String :=
  match env.queryError Query.countStateCommits with
  | some e => ([Event.query Query.countStateCommits], some e)
  | none =>
    let c := commitCount env.db
    let base := [Event.query Query.countStateCommits,
      Event.output ("📊 ADS state commits: " ++ toString c)]
    if 0 < c then
      match env.queryError Query.selectRecentCommits with
      | some e => (base ++ [Event.query Query.selectRecentCommits], some e)
      | none =>
        (base ++ Event.query Query.selectRecentCommits ::
          Event.output "📝 Recent ADS commits:" ::
          (recentCommits env.db).map (fun c => Event.output (commitLine c)), none)
    else (base, none)

/-- The tree-state section: the lookup query, then either the summary line or
the not-found line. -/
def treeStep (env : Env) : List Event × Option String :=
  match env.queryError Query.selectTreeState with
  | some e => ([Event.query Query.selectTreeState], some e)
  | none =>
    match treeStateLookup env.db with
    | some t => ([Event.query Query.selectTreeState, Event.output (treeStateLine t)], none)
    | none => ([Event.query Query.selectTreeState,
        Event.output "❌ No default tree state found"], none)

/-- The proof-batch section: the unconditional fetch, its header line, and one
line per returned row. -/
def batchStep (env : Env) : List Event × Option String :=
  match env.queryError Query.selectRecentBatches with
  | some e => ([Event.query Query.selectRecentBatches], some e)
  | none =>
    ([Event.query Query.selectRecentBatches, Event.output "📝 Recent batches:"] ++
      (recentBatches env.db).map (fun b => Event.output (batchLine b)), none)

/-- Run a list of sections in order, stopping at the first that raises. -/
def seqSteps (env : Env) : List (Env → List Event × Option String) → List Event × Option String
  | [] => ([], none)
  | s :: rest =>
    match s env with
    | (tr, some e) => (tr, some e)
    | (tr, none) =>
      match seqSteps env rest with
      | (tr2, r) => (tr ++ tr2, r)

/-- The body of the `try` block: connect, print the header, run the four query
sections in order, then close the cursor and the connection. Returns the trace
and `some e` when an exception `e` escaped the body. -/
def runBody (env : Env) : List Event × Option String :=
  match env.connectError with
  | some e => ([], some e)
  | none =>
    match seqSteps env [nullifierStep, commitStep, treeStep, batchStep] with
    | (tr, some e) => (Event.output "🔍 Checking ADS table contents..." :: tr, some e)
    | (tr, none) => (Event.output "🔍 Checking ADS table contents..." ::
        (tr ++ [Event.closeCursor, Event.closeConn]), none)

/-- A whole run of the script: the `try` body, and on exception the two lines of
the `except` handler. The handler swallows the exception, so the process exit
code is 0 on both paths. -/
def run (env : Env) : List Event × Nat :=
  match runBody env with
  | (tr, none) => (tr, 0)
  | (tr, some e) =>
    (tr ++ [Event.output (errLine1 e), Event.output (errLine2 (databaseUrl env))], 0)

/-- The queries issued during a trace, in order. -/
def queriesOf (tr : List Event) : List Query :=
  tr.filterMap (fun e => match e with
    | Event.query q => some q
    | _ => none)

/-- No fault is injected: the connection succeeds and every execute succeeds. -/
def noFaults (env : Env) : Prop :=
  env.connectError = none ∧ ∀ q, env.queryError q = none

/-- Sorted descending with respect to `key`: every element is `≥` (by key) each
later one. -/
def SortedDesc {α : Type} (key : α → Int) (l : List α) : Prop :=
  List.Pairwise (fun a b => key b ≤ key a) l

theorem mem_insertDesc {α : Type} (key : α → Int) (x y : α) (l : List α) :
    y ∈ insertDesc key x l ↔ y = x ∨ y ∈ l := by
  induction l with
  | nil => simp [insertDesc]
  | cons a as ih =>
    by_cases h : key a ≤ key x
    · simp [insertDesc, h]
    · simp only [insertDesc, if_neg h, List.mem_cons, ih]
      tauto

theorem sortedDesc_insertDesc {α : Type} (key : α → Int) (x : α) {l : List α}
    (h : SortedDesc key l) : SortedDesc key (insertDesc key x l) := by
  induction l with
  | nil => simp [insertDesc, SortedDesc]
  | cons a as ih =>
    rcases List.pairwise_cons.mp h with ⟨ha, has⟩
    unfold SortedDesc
    by_cases hc : key a ≤ key x
    · simp only [insertDesc, if_pos hc]
      refine List.pairwise_cons.mpr ⟨?_, h⟩
      intro b hb
      rcases List.mem_cons.mp hb with rfl | hb
      · exact hc
      · exact le_trans (ha b hb) hc
    · simp only [insertDesc, if_neg hc]
      refine List.pairwise_cons.mpr ⟨?_, ih has⟩
      intro b hb
      rcases (mem_insertDesc key x b as).mp hb with rfl | hb
      · omega
      · exact ha b hb

theorem sortedDesc_sortDesc {α : Type} (key : α → Int) (l : List α) :
    SortedDesc key (sortDesc key l) := by
  induction l with
  | nil => simp [sortDesc, SortedDesc]
  | cons a as ih => exact sortedDesc_insertDesc key a ih

theorem sortedDesc_take {α : Type} (key : α → Int) (n : Nat) {l : List α}
    (h : SortedDesc key l) : SortedDesc key (l.take n) :=
  List.Pairwise.sublist (List.take_sublist n l) h

theorem seqSteps_cons_fail (env : Env) (s : Env → List Event × Option String)
    (rest : List (Env → List Event × Option String)) (e : String)
    (h : (s env).2 = some e) :
    seqSteps env (s :: rest) = ((s env).1, some e) := by
  rcases hs : s env with ⟨tr, r⟩
  rw [hs] at h
  simp at h
  subst h
  simp [seqSteps, hs]

theorem seqSteps_cons_ok (env : Env) (s : Env → List Event × Option String)
    (rest : List (Env → List Event × Option String))
    (h : (s env).2 = none) :
    seqSteps env (s :: rest) =
      ((s env).1 ++ (seqSteps env rest).1, (seqSteps env rest).2) := by
  rcases hs : s env with ⟨tr, r⟩
  rw [hs] at h
  simp at h
  subst h
  rcases hr : seqSteps env rest with ⟨tr2, r2⟩
  simp [seqSteps, hs, hr]

/-- The trace of the nullifier section when its execute calls succeed. -/
def nullifierOkTrace (db : Database) : List Event :=
  [Event.query Query.countActiveNullifiers,
    Event.output ("📊 Active nullifiers: " ++ toString (nullifierCount db))] ++
  (if 0 < nullifierCount db then
    Event.query Query.selectRecentNullifiers ::
      Event.output "📝 Recent nullifiers:" ::
      (recentNullifiers db).map (fun n => Event.output (nullifierLine n))
  else [])

/-- The trace of the state-commit section when its execute calls succeed. -/
def commitOkTrace (db : Database) : List Event :=
  [Event.query Query.countStateCommits,
    Event.output ("📊 ADS state commits: " ++ toString (commitCount db))] ++
  (if 0 < commitCount db then
    Event.query Query.selectRecentCommits ::
      Event.output "📝 Recent ADS commits:" ::
      (recentCommits db).map (fun c => Event.output (commitLine c))
  else [])

/-- The trace of the tree-state section when its execute call succeeds. -/
def treeOkTrace (db : Database) : List Event :=
  match treeStateLookup db with
  | some t => [Event.query Query.selectTreeState, Event.output (treeStateLine t)]
  | none => [Event.query Query.selectTreeState,
      Event.output "❌ No default tree state found"]

/-- The trace of the proof-batch section when its execute call succeeds. -/
def batchOkTrace (db : Database) : List Event :=
  [Event.query Query.selectRecentBatches, Event.output "📝 Recent batches:"] ++
    (recentBatches db).map (fun b => Event.output (batchLine b))

/-- The whole trace of a fault-free run. -/
def okTrace (db : Database) : List Event :=
  Event.output "🔍 Checking ADS table contents..." ::
    (nullifierOkTrace db ++ commitOkTrace db ++ treeOkTrace db ++ batchOkTrace db ++
      [Event.closeCursor, Event.closeConn])

theorem nullifierStep_ok (env : Env)
    (h1 : env.queryError Query.countActiveNullifiers = none)
    (h2 : env.queryError Query.selectRecentNullifiers = none) :
    nullifierStep env = (nullifierOkTrace env.db, none) := by
  by_cases hc : 0 < nullifierCount env.db <;>
    simp [nullifierStep, nullifierOkTrace, h1, h2, hc]

theorem commitStep_ok (env : Env)
    (h1 : env.queryError Query.countStateCommits = none)
    (h2 : env.queryError Query.selectRecentCommits = none) :
    commitStep env = (commitOkTrace env.db, none) := by
  by_cases hc : 0 < commitCount env.db <;>
    simp [commitStep, commitOkTrace, h1, h2, hc]

theorem treeStep_ok (env : Env)
    (h1 : env.queryError Query.selectTreeState = none) :
    treeStep env = (treeOkTrace env.db, none) := by
  rcases ht : treeStateLookup env.db with _ | t <;>
    simp [treeStep, treeOkTrace, h1, ht]

theorem batchStep_ok (env : Env)
    (h1 : env.queryError Query.selectRecentBatches = none) :
    batchStep env = (batchOkTrace env.db, none) := by
  simp [batchStep, batchOkTrace, h1]

theorem run_ok (env : Env) (h : noFaults env) :
    run env = (okTrace env.db, 0) := by
  rcases h with ⟨hconn, hq⟩
  have hseq : seqSteps env [nullifierStep, commitStep, treeStep, batchStep] =
      (nullifierOkTrace env.db ++ (commitOkTrace env.db ++
        (treeOkTrace env.db ++ (batchOkTrace env.db ++ []))), none) := by
    rw [seqSteps_cons_ok, seqSteps_cons_ok, seqSteps_cons_ok, seqSteps_cons_ok]
    · simp [seqSteps, nullifierStep_ok env (hq _) (hq _),
        commitStep_ok env (hq _) (hq _), treeStep_ok env (hq _),
        batchStep_ok env (hq _)]
    · rw [batchStep_ok env (hq _)]
    · rw [treeStep_ok env (hq _)]
    · rw [commitStep_ok env (hq _) (hq _)]
    · rw [nullifierStep_ok env (hq _) (hq _)]
  simp [run, runBody, hconn, hseq, okTrace]

theorem queriesOf_nil : queriesOf [] = [] := rfl

theorem queriesOf_cons_query (q : Query) (tr : List Event) :
    queriesOf (Event.query q :: tr) = q :: queriesOf tr := rfl

theorem queriesOf_cons_output (s : String) (tr : List Event) :
    queriesOf (Event.output s :: tr) = queriesOf tr := rfl

theorem queriesOf_cons_closeCursor (tr : List Event) :
    queriesOf (Event.closeCursor :: tr) = queriesOf tr := rfl

theorem queriesOf_cons_closeConn (tr : List Event) :
    queriesOf (Event.closeConn :: tr) = queriesOf tr := rfl

theorem queriesOf_append (l1 l2 : List Event) :
    queriesOf (l1 ++ l2) = queriesOf l1 ++ queriesOf l2 := by
  simp [queriesOf]

theorem queriesOf_output_map {α : Type} (f : α → String) (l : List α) :
    queriesOf (l.map (fun a => Event.output (f a))) = [] := by
  induction l with
  | nil => rfl
  | cons a as ih => simpa [queriesOf_cons_output] using ih

theorem queriesOf_nullifierOkTrace (db : Database) :
    queriesOf (nullifierOkTrace db) =
      Query.countActiveNullifiers ::
        (if 0 < nullifierCount db then [Query.selectRecentNullifiers] else []) := by
  by_cases hc : 0 < nullifierCount db <;>
    simp [nullifierOkTrace, hc, queriesOf_append, queriesOf_cons_query,
      queriesOf_cons_output, queriesOf_output_map, queriesOf_nil]

theorem queriesOf_commitOkTrace (db : Database) :
    queriesOf (commitOkTrace db) =
      Query.countStateCommits ::
        (if 0 < commitCount db then [Query.selectRecentCommits] else []) := by
  by_cases hc : 0 < commitCount db <;>
    simp [commitOkTrace, hc, queriesOf_append, queriesOf_cons_query,
      queriesOf_cons_output, queriesOf_output_map, queriesOf_nil]

theorem queriesOf_treeOkTrace (db : Database) :
    queriesOf (treeOkTrace db) = [Query.selectTreeState] := by
  rcases ht : treeStateLookup db with _ | t <;>
    simp [treeOkTrace, ht, queriesOf_cons_query, queriesOf_cons_output, queriesOf_nil]

theorem queriesOf_batchOkTrace (db : Database) :
    queriesOf (batchOkTrace db) = [Query.selectRecentBatches] := by
  simp [batchOkTrace, queriesOf_append, queriesOf_cons_query,
    queriesOf_cons_output, queriesOf_output_map, queriesOf_nil]

theorem queriesOf_okTrace (db : Database) :
    queriesOf (okTrace db) =
      Query.countActiveNullifiers ::
        ((if 0 < nullifierCount db then [Query.selectRecentNullifiers] else []) ++
          Query.countStateCommits ::
            ((if 0 < commitCount db then [Query.selectRecentCommits] else []) ++
              [Query.selectTreeState, Query.selectRecentBatches])) := by
  simp [okTrace, queriesOf_append, queriesOf_cons_output, queriesOf_cons_query,
    queriesOf_cons_closeCursor, queriesOf_cons_closeConn, queriesOf_nil,
    queriesOf_nullifierOkTrace, queriesOf_commitOkTrace, queriesOf_treeOkTrace,
    queriesOf_batchOkTrace]

/-- A trace with no close call on the cursor or the connection. -/
def closeFree (tr : List Event) : Prop :=
  Event.closeCursor ∉ tr ∧ Event.closeConn ∉ tr

theorem closeFree_append (l1 l2 : List Event) :
    closeFree (l1 ++ l2) ↔ closeFree l1 ∧ closeFree l2 := by
  simp [closeFree, List.mem_append]
  tauto

theorem closeFree_nullifierStep (env : Env) : closeFree (nullifierStep env).1 := by
  rcases h1 : env.queryError Query.countActiveNullifiers with _ | e
  · by_cases hc : 0 < nullifierCount env.db
    · rcases h2 : env.queryError Query.selectRecentNullifiers with _ | e
      · simp [nullifierStep, h1, h2, hc, closeFree, List.mem_append, List.mem_map]
      · simp [nullifierStep, h1, h2, hc, closeFree, List.mem_append]
    · simp [nullifierStep, h1, hc, closeFree]
  · simp [nullifierStep, h1, closeFree]

theorem closeFree_commitStep (env : Env) : closeFree (commitStep env).1 := by
  rcases h1 : env.queryError Query.countStateCommits with _ | e
  · by_cases hc : 0 < commitCount env.db
    · rcases h2 : env.queryError Query.selectRecentCommits with _ | e
      · simp [commitStep, h1, h2, hc, closeFree, List.mem_append, List.mem_map]
      · simp [commitStep, h1, h2, hc, closeFree, List.mem_append]
    · simp [commitStep, h1, hc, closeFree]
  · simp [commitStep, h1, closeFree]

theorem closeFree_treeStep (env : Env) : closeFree (treeStep env).1 := by
  rcases h1 : env.queryError Query.selectTreeState with _ | e
  · rcases ht : treeStateLookup env.db with _ | t <;>
      simp [treeStep, h1, ht, closeFree]
  · simp [treeStep, h1, closeFree]

theorem closeFree_batchStep (env : Env) : closeFree (batchStep env).1 := by
  rcases h1 : env.queryError Query.selectRecentBatches with _ | e
  · simp [batchStep, h1, closeFree, List.mem_append, List.mem_map]
  · simp [batchStep, h1, closeFree]

theorem closeFree_seqSteps (env : Env)
    (steps : List (Env → List Event × Option String))
    (h : ∀ s ∈ steps, closeFree ((s env).1)) :
    closeFree ((seqSteps env steps).1) := by
  induction steps with
  | nil => simp [seqSteps, closeFree]
  | cons s rest ih =>
    rcases hr : (s env).2 with _ | e
    · rw [seqSteps_cons_ok env s rest hr]
      exact (closeFree_append _ _).mpr
        ⟨h s (List.mem_cons_self s rest),
          ih (fun t ht => h t (List.mem_cons_of_mem s ht))⟩
    · rw [seqSteps_cons_fail env s rest e hr]
      exact h s (List.mem_cons_self s rest)

theorem run_fail (env : Env) (e : String) (h : (runBody env).2 = some e) :
    (run env).1 = (runBody env).1 ++
      [Event.output (errLine1 e), Event.output (errLine2 (databaseUrl env))] ∧
    (run env).2 = 0 := by
  rcases hb : runBody env with ⟨tr, r⟩
  rw [hb] at h
  simp at h
  subst h
  simp [run, hb]

theorem closeFree_runBody_fail (env : Env) (e : String)
    (hc : env.connectError = none) (h : (runBody env).2 = some e) :
    closeFree (runBody env).1 := by
  have hsteps : ∀ s ∈ [nullifierStep, commitStep, treeStep, batchStep],
      closeFree ((s env).1) := by
    intro s hs
    rcases List.mem_cons.mp hs with rfl | hs
    · exact closeFree_nullifierStep env
    rcases List.mem_cons.mp hs with rfl | hs
    · exact closeFree_commitStep env
    rcases List.mem_cons.mp hs with rfl | hs
    · exact closeFree_treeStep env
    rcases List.mem_cons.mp hs with rfl | hs
    · exact closeFree_batchStep env
    simp at hs
  have hsf := closeFree_seqSteps env [nullifierStep, commitStep, treeStep, batchStep] hsteps
  rcases hs : seqSteps env [nullifierStep, commitStep, treeStep, batchStep] with ⟨tr, r⟩
  rw [hs] at hsf
  rcases r with _ | e2
  · rw [runBody, hc, hs] at h
    simp at h
  · rw [runBody, hc, hs] at h ⊢
    simp at h
    simp [closeFree] at hsf ⊢
    exact hsf

theorem query_mem_iff (q : Query) (tr : List Event) :
    Event.query q ∈ tr ↔ q ∈ queriesOf tr := by
  induction tr with
  | nil => simp [queriesOf]
  | cons ev rest ih =>
    cases ev with
    | query a => simp [queriesOf_cons_query, ih]
    | output s => simp [queriesOf_cons_output, ih]
    | closeCursor => simp [queriesOf_cons_closeCursor, ih]
    | closeConn => simp [queriesOf_cons_closeConn, ih]

theorem sql_is_select (q : Query) : ∃ rest : String, sqlOf q = "SELECT" ++ rest := by
  cases q with
  | countActiveNullifiers =>
      exact ⟨" COUNT(*) FROM nullifiers WHERE is_active = true", rfl⟩
  | selectRecentNullifiers =>
      exact ⟨" value, tree_index, created_at FROM nullifiers WHERE is_active = true ORDER BY created_at DESC LIMIT 3", rfl⟩
  | countStateCommits =>
      exact ⟨" COUNT(*) FROM ads_state_commits", rfl⟩
  | selectRecentCommits =>
      exact ⟨" batch_id, created_at FROM ads_state_commits ORDER BY created_at DESC LIMIT 3", rfl⟩
  | selectTreeState =>
      exact ⟨" total_nullifiers, next_available_index, updated_at FROM tree_state WHERE tree_id = \x27default\x27", rfl⟩
  | selectRecentBatches =>
      exact ⟨" id, transaction_count, proof_status, created_at FROM proof_batches ORDER BY created_at DESC LIMIT 3", rfl⟩

/-- An empty database: every table holds zero rows. -/
def emptyDb : Database :=
  { nullifiers := [], ads_state_commits := [], tree_state := [], proof_batches := [] }

/-- A fault-free environment with `DATABASE_URL` unset and an empty database. -/
def envEmptyOk : Env :=
  { databaseUrlVar := none, connectError := none,
    queryError := fun _ => none, db := emptyDb }

/-- An environment in which `psycopg2.connect` raises. -/
def envConnFail : Env :=
  { databaseUrlVar := none, connectError := some "connection refused",
    queryError := fun _ => none, db := emptyDb }

/-- An environment in which the connection succeeds but the state-commit count
query raises. -/
def envQueryFail : Env :=
  { databaseUrlVar := none, connectError := none,
    queryError := fun q =>
      match q with
      | Query.countStateCommits => some "relation does not exist"
      | _ => none,
    db := emptyDb }

/-- An environment with `DATABASE_URL` set to a custom value. -/
def envCustomUrl : Env :=
  { databaseUrlVar := some "postgres://user@dbhost:6543/mydb", connectError := none,
    queryError := fun _ => none, db := emptyDb }

/-- Claim C2: each of the three detail result sequences (recent nullifiers,
recent state commits, recent proof batches) contains at most 3 elements and is
ordered by creation time descending. -/
theorem claim_c2 (db : Database) :
    ((recentNullifiers db).length ≤ 3 ∧
      SortedDesc (fun n => n.created_at) (recentNullifiers db)) ∧
    ((recentCommits db).length ≤ 3 ∧
      SortedDesc (fun c => c.created_at) (recentCommits db)) ∧
    ((recentBatches db).length ≤ 3 ∧
      SortedDesc (fun b => b.created_at) (recentBatches db)) := by
  refine ⟨⟨?_, ?_⟩, ⟨?_, ?_⟩, ⟨?_, ?_⟩⟩
  · simp [recentNullifiers, List.length_take]
  · exact sortedDesc_take _ 3 (sortedDesc_sortDesc _ _)
  · simp [recentCommits, List.length_take]
  · exact sortedDesc_take _ 3 (sortedDesc_sortDesc _ _)
  · simp [recentBatches, List.length_take]
  · exact sortedDesc_take _ 3 (sortedDesc_sortDesc _ _)

/-- Claim C3: if establishing the connection fails, the tool prints the two
handler lines — the second of which contains the attempted connection target —
and terminates without issuing any query. -/
theorem claim_c3 (env : Env) (e : String) (h : env.connectError = some e) :
    (run env).1 = [Event.output (errLine1 e),
      Event.output (errLine2 (databaseUrl env))] ∧
    (∃ pre : String, errLine2 (databaseUrl env) = pre ++ databaseUrl env) ∧
    queriesOf (run env).1 = [] := by
  have hb : runBody env = ([], some e) := by simp [runBody, h]
  refine ⟨?_, ⟨"💡 Make sure DATABASE_URL is set correctly: ", rfl⟩, ?_⟩
  · simp [run, hb]
  · simp [run, hb, queriesOf_cons_output, queriesOf_nil]

/-- Claim C3 witness: instantiated at a concrete environment whose connection
attempt raises. -/
theorem claim_c3_witness :
    (run envConnFail).1 = [Event.output (errLine1 "connection refused"),
      Event.output (errLine2 (databaseUrl envConnFail))] ∧
    (∃ pre : String,
      errLine2 (databaseUrl envConnFail) = pre ++ databaseUrl envConnFail) ∧
    queriesOf (run envConnFail).1 = [] :=
  claim_c3 envConnFail "connection refused" rfl

/-- Claim C9: when `DATABASE_URL` is unset the connection target is exactly the
default string `postgres://postgres@localhost:5432/postgres`; when it is set,
its value is used instead. -/
theorem claim_c9 (env : Env) :
    (env.databaseUrlVar = none →
      databaseUrl env = "postgres://postgres@localhost:5432/postgres") ∧
    (∀ s : String, env.databaseUrlVar = some s → databaseUrl env = s) := by
  constructor
  · intro h
    simp [databaseUrl, h, defaultDatabaseUrl]
  · intro s h
    simp [databaseUrl, h]

/-- Claim C9 witness: instantiated at a concrete environment with the variable
unset and one with it set. -/
theorem claim_c9_witness :
    databaseUrl envEmptyOk = "postgres://postgres@localhost:5432/postgres" ∧
    databaseUrl envCustomUrl = "postgres://user@dbhost:6543/mydb" :=
  ⟨(claim_c9 envEmptyOk).1 rfl, (claim_c9 envCustomUrl).2 _ rfl⟩

/-- Claim C1: on a fault-free run, when the active-nullifier count is 0 the tool
issues the nullifier count query but never the nullifier detail query; likewise,
when the state-commit count is 0 it issues the commit count query but never the
commit detail query. -/
theorem claim_c1 (env : Env) (h : noFaults env) :
    (nullifierCount env.db = 0 →
      Event.query Query.countActiveNullifiers ∈ (run env).1 ∧
      Event.query Query.selectRecentNullifiers ∉ (run env).1) ∧
    (commitCount env.db = 0 →
      Event.query Query.countStateCommits ∈ (run env).1 ∧
      Event.query Query.selectRecentCommits ∉ (run env).1) := by
  have htr : (run env).1 = okTrace env.db := by rw [run_ok env h]
  simp only [htr, query_mem_iff, queriesOf_okTrace]
  constructor
  · intro h0
    have h0' : ¬ 0 < nullifierCount env.db := by omega
    by_cases hcc : 0 < commitCount env.db <;> simp [h0', hcc]
  · intro h0
    have h0' : ¬ 0 < commitCount env.db := by omega
    by_cases hnc : 0 < nullifierCount env.db <;> simp [h0', hnc]

/-- Claim C1 witness: instantiated at a fault-free environment whose database is
empty, so both counts are 0. -/
theorem claim_c1_witness :
    (nullifierCount envEmptyOk.db = 0 →
      Event.query Query.countActiveNullifiers ∈ (run envEmptyOk).1 ∧
      Event.query Query.selectRecentNullifiers ∉ (run envEmptyOk).1) ∧
    (commitCount envEmptyOk.db = 0 →
      Event.query Query.countStateCommits ∈ (run envEmptyOk).1 ∧
      Event.query Query.selectRecentCommits ∉ (run envEmptyOk).1) :=
  claim_c1 envEmptyOk ⟨rfl, fun _ => rfl⟩

/-- Claim C4: on a fault-free run in which the tree-state lookup for tree_id
"default" returns no row, the tool prints the not-found line, still executes the
proof-batches query, and finishes with exit code 0. -/
theorem claim_c4 (env : Env) (h : noFaults env)
    (ht : treeStateLookup env.db = none) :
    Event.output "❌ No default tree state found" ∈ (run env).1 ∧
    Event.query Query.selectRecentBatches ∈ (run env).1 ∧
    (run env).2 = 0 := by
  have hrun := run_ok env h
  have htr : (run env).1 = okTrace env.db := by rw [hrun]
  refine ⟨?_, ?_, by rw [hrun]⟩
  · rw [htr]
    simp [okTrace, treeOkTrace, ht, List.mem_append]
  · rw [htr, query_mem_iff, queriesOf_okTrace]
    by_cases hnc : 0 < nullifierCount env.db <;>
      by_cases hcc : 0 < commitCount env.db <;> simp [hnc, hcc]

/-- Claim C4 witness: instantiated at a fault-free environment with an empty
database, so the tree-state lookup finds no row. -/
theorem claim_c4_witness :
    Event.output "❌ No default tree state found" ∈ (run envEmptyOk).1 ∧
    Event.query Query.selectRecentBatches ∈ (run envEmptyOk).1 ∧
    (run envEmptyOk).2 = 0 :=
  claim_c4 envEmptyOk ⟨rfl, fun _ => rfl⟩ rfl

/-- Claim C5 counterexample: a run whose connection attempt raises still
finishes with exit code 0, because the top-level handler swallows the exception;
the claimed non-zero failure exit does not exist. -/
theorem claim_c5_counterexample :
    envConnFail.connectError = some "connection refused" ∧
    (run envConnFail).1 = [Event.output (errLine1 "connection refused"),
      Event.output (errLine2 defaultDatabaseUrl)] ∧
    (run envConnFail).2 = 0 :=
  ⟨rfl, rfl, rfl⟩

/-- Claim C5 (amended): the tool exits with code 0 on normal completion,
including the tree-state-not-found case, and also on the failure path: a
connection or query exception is caught, the error lines are printed, and the
process still terminates with exit code 0. -/
theorem claim_c5_amended_exit (env : Env) : (run env).2 = 0 := by
  rcases hb : runBody env with ⟨tr, r⟩
  rcases r with _ | e <;> simp [run, hb]

/-- Claim C6: every event of every run is either a query whose SQL text is a
SELECT statement, a line written to standard output, or a close call; the tool
executes no writing statement. -/
theorem claim_c6 (env : Env) (e : Event) (he : e ∈ (run env).1) :
    (∃ q : Query, e = Event.query q ∧ ∃ rest : String, sqlOf q = "SELECT" ++ rest) ∨
    (∃ s : String, e = Event.output s) ∨
    e = Event.closeCursor ∨ e = Event.closeConn := by
  cases e with
  | query q => exact Or.inl ⟨q, rfl, sql_is_select q⟩
  | output s => exact Or.inr (Or.inl ⟨s, rfl⟩)
  | closeCursor => exact Or.inr (Or.inr (Or.inl rfl))
  | closeConn => exact Or.inr (Or.inr (Or.inr rfl))

/-- Claim C6 witness: instantiated at a concrete environment and the first query
event of its run. -/
theorem claim_c6_witness :
    (∃ q : Query, Event.query Query.countActiveNullifiers = Event.query q ∧
      ∃ rest : String, sqlOf q = "SELECT" ++ rest) ∨
    (∃ s : String, Event.query Query.countActiveNullifiers = Event.output s) ∨
    Event.query Query.countActiveNullifiers = Event.closeCursor ∨
    Event.query Query.countActiveNullifiers = Event.closeConn :=
  claim_c6 envEmptyOk (Event.query Query.countActiveNullifiers) (by decide)

/-- Claim C7: on a fault-free run the queries are issued in the fixed linear
order count-nullifiers, (detail nullifiers), count-commits, (detail commits),
tree state, proof batches, and the trace ends with the cursor and connection
close calls; on any failure the run is the partial body trace followed by the
two error lines. -/
theorem claim_c7 (env : Env) (h : noFaults env) :
    queriesOf (run env).1 =
      Query.countActiveNullifiers ::
        ((if 0 < nullifierCount env.db then [Query.selectRecentNullifiers] else []) ++
          Query.countStateCommits ::
            ((if 0 < commitCount env.db then [Query.selectRecentCommits] else []) ++
              [Query.selectTreeState, Query.selectRecentBatches])) ∧
    (∃ tr : List Event, (run env).1 = tr ++ [Event.closeCursor, Event.closeConn]) ∧
    (∀ env2 : Env, ∀ e : String, (runBody env2).2 = some e →
      (run env2).1 = (runBody env2).1 ++
        [Event.output (errLine1 e), Event.output (errLine2 (databaseUrl env2))]) := by
  have htr : (run env).1 = okTrace env.db := by rw [run_ok env h]
  refine ⟨?_, ?_, ?_⟩
  · rw [htr, queriesOf_okTrace]
  · refine ⟨Event.output "🔍 Checking ADS table contents..." ::
      (nullifierOkTrace env.db ++ commitOkTrace env.db ++ treeOkTrace env.db ++
        batchOkTrace env.db), ?_⟩
    rw [htr]
    simp [okTrace]
  · intro env2 e he
    exact (run_fail env2 e he).1

/-- Claim C7 witness: instantiated at a fault-free environment with an empty
database. -/
theorem claim_c7_witness :
    queriesOf (run envEmptyOk).1 =
      Query.countActiveNullifiers ::
        ((if 0 < nullifierCount envEmptyOk.db then [Query.selectRecentNullifiers] else []) ++
          Query.countStateCommits ::
            ((if 0 < commitCount envEmptyOk.db then [Query.selectRecentCommits] else []) ++
              [Query.selectTreeState, Query.selectRecentBatches])) ∧
    (∃ tr : List Event,
      (run envEmptyOk).1 = tr ++ [Event.closeCursor, Event.closeConn]) ∧
    (∀ env2 : Env, ∀ e : String, (runBody env2).2 = some e →
      (run env2).1 = (runBody env2).1 ++
        [Event.output (errLine1 e), Event.output (errLine2 (databaseUrl env2))]) :=
  claim_c7 envEmptyOk ⟨rfl, fun _ => rfl⟩

/-- Claim C8: the proof-batches query is executed on every fault-free run,
whatever the table counts; and when the proof_batches table holds zero rows the
result sequence is empty and the batches section of the trace is just the query
and its header line, with no row lines. -/
theorem claim_c8 (env : Env) (h : noFaults env) :
    Query.selectRecentBatches ∈ queriesOf (run env).1 ∧
    (env.db.proof_batches = [] →
      recentBatches env.db = [] ∧
      batchOkTrace env.db = [Event.query Query.selectRecentBatches,
        Event.output "📝 Recent batches:"]) := by
  have htr : (run env).1 = okTrace env.db := by rw [run_ok env h]
  constructor
  · rw [htr, queriesOf_okTrace]
    by_cases hnc : 0 < nullifierCount env.db <;>
      by_cases hcc : 0 < commitCount env.db <;> simp [hnc, hcc]
  · intro hpb
    constructor
    · simp [recentBatches, hpb, sortDesc]
    · simp [batchOkTrace, recentBatches, hpb, sortDesc]

/-- Claim C8 witness: instantiated at a fault-free environment whose
proof_batches table is empty. -/
theorem claim_c8_witness :
    Query.selectRecentBatches ∈ queriesOf (run envEmptyOk).1 ∧
    (envEmptyOk.db.proof_batches = [] →
      recentBatches envEmptyOk.db = [] ∧
      batchOkTrace envEmptyOk.db = [Event.query Query.selectRecentBatches,
        Event.output "📝 Recent batches:"]) :=
  claim_c8 envEmptyOk ⟨rfl, fun _ => rfl⟩

/-- Claim C10: when the connection succeeds but a query raises, no close call on
the cursor or the connection ever appears in the trace, and the full trace is
exactly the lines already printed by the steps that ran, followed by the two
error lines. -/
theorem claim_c10 (env : Env) (e : String) (hc : env.connectError = none)
    (hf : (runBody env).2 = some e) :
    Event.closeCursor ∉ (run env).1 ∧ Event.closeConn ∉ (run env).1 ∧
    (run env).1 = (runBody env).1 ++
      [Event.output (errLine1 e), Event.output (errLine2 (databaseUrl env))] := by
  have hr := (run_fail env e hf).1
  rcases closeFree_runBody_fail env e hc hf with ⟨hb1, hb2⟩
  refine ⟨?_, ?_, hr⟩
  · rw [hr]
    simp [List.mem_append, hb1]
  · rw [hr]
    simp [List.mem_append, hb2]

/-- Claim C10 witness: instantiated at a concrete environment whose
state-commit count query raises after a successful connection. -/
theorem claim_c10_witness :
    Event.closeCursor ∉ (run envQueryFail).1 ∧
    Event.closeConn ∉ (run envQueryFail).1 ∧
    (run envQueryFail).1 = (runBody envQueryFail).1 ++
      [Event.output (errLine1 "relation does not exist"),
        Event.output (errLine2 (databaseUrl envQueryFail))] :=
  claim_c10 envQueryFail "relation does not exist" rfl (by decide)

end CheckAdsTables
